import Mathlib

/-!
Shallow embedding of the elephant-tracking dashboard (App.tsx, types.ts,
data.ts): the domain model, the timer-driven event synthesizer, the alert
ledger, the notification gate, and the map-surface controller, together with
theorems settling the frozen claims about them.

Conventions of the embedding:
* Geographic coordinates and random draws are rationals (the source uses JS
  numbers; all constants involved are exact decimals).
* `Math.random()` draws are passed in explicitly as a `Draws` record, one
  field per call site inside a single timer tick.
* Timestamps (`new Date().toISOString()`, `formatISO(...)`) are opaque
  strings supplied as parameters; no claim depends on their contents.
* The JS runtime error raised by reading a property of `undefined` is made
  explicit with `Except`: `synthTick` returns `.error` exactly where the
  source would throw a TypeError.
-/

namespace ElephantAlert

/-- types.ts `AlertSeverity`: High | Medium | Low | Resolved. -/
inductive AlertSeverity
  | High
  | Medium
  | Low
  | Resolved
deriving DecidableEq, Repr

/-- types.ts `DeviceStatus`: Online | Offline | LowBattery. -/
inductive DeviceStatus
  | Online
  | Offline
  | LowBattery
deriving DecidableEq, Repr

/-- A latitude/longitude pair, `{lat: number, lng: number}` in types.ts. -/
structure Loc where
  lat : ℚ
  lng : ℚ
deriving DecidableEq, Repr

/-- types.ts `Alert`. -/
structure Alert where
  id : String
  timestamp : String
  location : Loc
  severity : AlertSeverity
  deviceId : String
deriving DecidableEq, Repr

/-- types.ts `Device`. -/
structure Device where
  id : String
  status : DeviceStatus
  battery : Nat
  lastPing : String
  location : Loc
deriving DecidableEq, Repr

/-- The part of App.tsx component state the claims are about:
`alerts` (the ledger, `useState<Alert[]>(mockAlerts)`) and
`highSeverityAlert` (the notification gate, `useState<Alert | null>(null)`). -/
structure AppState where
  alerts : List Alert
  highSeverityAlert : Option Alert
deriving DecidableEq, Repr

/-- The `Math.random()` values consumed by one timer tick of the synthesizer
(App.tsx lines 555-576), one field per call site, in source order. -/
structure Draws where
  fire : ℚ
  pick : ℚ
  idDraw : ℚ
  latDraw : ℚ
  lngDraw : ℚ
deriving DecidableEq, Repr

/-- `setAlerts(prev => [newAlert, ...prev])` (App.tsx line 570): the ledger's
single insert operation, a prepend. -/
def ledgerAppend (a : Alert) (l : List Alert) : List Alert :=
  a :: l

/-- The state update performed by `setAlerts(prev => [newAlert, ...prev])`
alone: it replaces the ledger and touches nothing else. -/
def applyAppend (a : Alert) (s : AppState) : AppState :=
  { s with alerts := ledgerAppend a s.alerts }

/-- The state update performed by `setHighSeverityAlert(x)` alone
(App.tsx lines 571 and 600). -/
def setHighSeverityAlert (x : Option Alert) (s : AppState) : AppState :=
  { s with highSeverityAlert := x }

/-- `devices[Math.floor(Math.random() * devices.length)]` (App.tsx line 559).
Returns `none` exactly when the index is out of range — i.e. when the JS
expression evaluates to `undefined` (which happens when `devices` is empty,
since the index is then `Math.floor(r * 0) = 0`). -/
def chooseDevice (devices : List Device) (r : ℚ) : Option Device :=
  devices.get? (Int.floor (r * devices.length)).toNat

/-- The `newAlert` object literal built by a firing tick
(App.tsx lines 560-569) from the chosen device `d`, the tick's random draws
and the current timestamp: fresh id `A` + floor(r*1000), severity fixed at
High, location = device location perturbed by `(r - 0.5) * 0.01` per axis. -/
def mkAlert (d : Device) (dr : Draws) (ts : String) : Alert :=
  { id := "A" ++ toString (Int.floor (dr.idDraw * 1000))
    timestamp := ts
    location :=
      { lat := d.location.lat + (dr.latDraw - 1/2) * (1/100)
        lng := d.location.lng + (dr.lngDraw - 1/2) * (1/100) }
    severity := AlertSeverity.High
    deviceId := d.id }

/-- One tick of the `setInterval` callback (App.tsx lines 556-572).
Fires when `Math.random() > 0.9`.  On a firing tick it indexes the device
array; if that yields `undefined` (empty array) the source throws a TypeError
while evaluating `randomDevice.location.lat`, before either state setter
runs — modelled as `.error`.  Otherwise it appends the new alert to the
ledger and sets the notification gate to it, returning the generated alert
and the updated state. -/
def synthTick (devices : List Device) (dr : Draws) (ts : String) (s : AppState) :
    Except String (Option Alert × AppState) :=
  if dr.fire > 9/10 then
    match chooseDevice devices dr.pick with
    | none =>
        Except.error "TypeError: cannot read properties of undefined (reading location)"
    | some d =>
        let newAlert := mkAlert d dr ts
        Except.ok (some newAlert,
          setHighSeverityAlert (some newAlert) (applyAppend newAlert s))
  else
    Except.ok (none, s)

/-- Observable effect of one tick on component state: an exception thrown
inside the interval callback is uncaught and leaves React state exactly as it
was, so `.error` maps to the unchanged state. -/
def runTick (devices : List Device) (dr : Draws) (ts : String) (s : AppState) :
    AppState :=
  match synthTick devices dr ts s with
  | Except.ok (_, s2) => s2
  | Except.error _ => s

/-- Observable effect of a whole sequence of ticks. -/
def runTicks (devices : List Device) (ticks : List (Draws × String))
    (s : AppState) : AppState :=
  ticks.foldl (fun s2 p => runTick devices p.1 p.2 s2) s

/-- The events that touch the ledger or gate during a session: a timer tick
of the synthesizer, or the user acknowledging the modal
(`onClose={() => setHighSeverityAlert(null)}`, App.tsx line 600). -/
inductive Event
  | tick (dr : Draws) (ts : String)
  | acknowledge
deriving Repr

/-- The transition function over App state for one event. -/
def step (devices : List Device) (s : AppState) (e : Event) : AppState :=
  match e with
  | Event.tick dr ts => runTick devices dr ts s
  | Event.acknowledge => setHighSeverityAlert none s

/-- Run a list of events from a state. -/
def run (devices : List Device) (s : AppState) (evs : List Event) : AppState :=
  evs.foldl (step devices) s

/-- data.ts `mockAlerts[0]`: alert `A001`, severity High, at `(6.8, 80.8)`,
for device `D101`. -/
def mockA001 : Alert :=
  { id := "A001", timestamp := "t-1h", location := { lat := 6.8, lng := 80.8 },
    severity := AlertSeverity.High, deviceId := "D101" }

/-- data.ts `mockAlerts[1]`: alert `A002`, severity Medium. -/
def mockA002 : Alert :=
  { id := "A002", timestamp := "t-2h", location := { lat := 6.82, lng := 80.81 },
    severity := AlertSeverity.Medium, deviceId := "D102" }

/-- data.ts `mockDevices[0]`: device `D101`, Online, battery 89, at
`(6.8, 80.8)`. -/
def mockD101 : Device :=
  { id := "D101", status := DeviceStatus.Online, battery := 89,
    lastPing := "t-6m", location := { lat := 6.8, lng := 80.8 } }

/-- data.ts `mockAlerts` (timestamps are opaque placeholders; the source
computes them from the load-time clock, and no claim depends on them). -/
def mockAlerts : List Alert :=
  [ mockA001,
    mockA002,
    { id := "A003", timestamp := "t-5h", location := { lat := 6.79, lng := 80.78 },
      severity := AlertSeverity.Low, deviceId := "D103" },
    { id := "A004", timestamp := "t-8h", location := { lat := 6.81, lng := 80.83 },
      severity := AlertSeverity.Resolved, deviceId := "D101" },
    { id := "A005", timestamp := "t-12h", location := { lat := 6.83, lng := 80.79 },
      severity := AlertSeverity.Resolved, deviceId := "D104" } ]

/-- data.ts `mockDevices`. -/
def mockDevices : List Device :=
  [ mockD101,
    { id := "D102", status := DeviceStatus.Online, battery := 72,
      lastPing := "t-12m", location := { lat := 6.82, lng := 80.81 } },
    { id := "D103", status := DeviceStatus.LowBattery, battery := 15,
      lastPing := "t-1h", location := { lat := 6.79, lng := 80.78 } },
    { id := "D104", status := DeviceStatus.Offline, battery := 55,
      lastPing := "t-6h", location := { lat := 6.83, lng := 80.79 } },
    { id := "D105", status := DeviceStatus.Online, battery := 95,
      lastPing := "t-18m", location := { lat := 6.85, lng := 80.85 } } ]

/-- Initial App state: `useState<Alert[]>(mockAlerts)` and
`useState<Alert | null>(null)`. -/
def initialState : AppState :=
  { alerts := mockAlerts, highSeverityAlert := none }

/-- A state is reachable when some event sequence leads to it from the
initial state. -/
def Reachable (devices : List Device) (s : AppState) : Prop :=
  ∃ evs : List Event, run devices initialState evs = s

/-! ### Map surface overlays (MapView data-layer effect, App.tsx 102-143) -/

/-- The CSS class chosen for a device marker (App.tsx 109-112):
`Online` → green, `LowBattery` → yellow, otherwise red. -/
def statusColorClass (st : DeviceStatus) : String :=
  match st with
  | DeviceStatus.Online => "bg-green-500"
  | DeviceStatus.LowBattery => "bg-yellow-500"
  | DeviceStatus.Offline => "bg-red-500"

/-- types.ts string value of a severity (used in the circle popup). -/
def severityText (sev : AlertSeverity) : String :=
  match sev with
  | AlertSeverity.High => "High"
  | AlertSeverity.Medium => "Medium"
  | AlertSeverity.Low => "Low"
  | AlertSeverity.Resolved => "Resolved"

/-- One overlay placed on the Leaflet layer group: a device marker (position,
marker color class, popup text) or an alert circle (position, color, radius,
popup text). -/
inductive Overlay
  | marker (pos : Loc) (colorClass : String) (popup : String)
  | circle (pos : Loc) (color : String) (radius : ℚ) (popup : String)
deriving DecidableEq, Repr

/-- `true` exactly on device markers. -/
def Overlay.isMarker : Overlay → Bool
  | Overlay.marker _ _ _ => true
  | Overlay.circle _ _ _ _ => false

/-- Popup bound to a device marker (App.tsx 126). -/
def devicePopup (d : Device) : String :=
  "<b>Device:</b> " ++ d.id ++ "<br><b>Battery:</b> " ++ toString d.battery ++ "%"

/-- Popup bound to an alert circle (App.tsx 139). -/
def alertPopup (a : Alert) : String :=
  "<b>Alert:</b> " ++ a.id ++ "<br><b>Severity:</b> " ++ severityText a.severity

/-- The marker added for one device (App.tsx 108-127). -/
def deviceMarker (d : Device) : Overlay :=
  Overlay.marker d.location (statusColorClass d.status) (devicePopup d)

/-- The circle added for one alert (App.tsx 130-141): skipped when the
severity is `Resolved`; red when `High`, orange otherwise; radius 200. -/
def alertCircle (a : Alert) : Option Overlay :=
  if a.severity ≠ AlertSeverity.Resolved then
    some (Overlay.circle a.location
      (if a.severity = AlertSeverity.High then "red" else "orange")
      200 (alertPopup a))
  else
    none

/-- The overlay set rebuilt from scratch by the data-layer effect
(App.tsx 102-143): `clearLayers()` then one marker per device followed by
one circle per non-Resolved alert. -/
def buildOverlays (devices : List Device) (alerts : List Alert) : List Overlay :=
  devices.map deviceMarker ++ alerts.filterMap alertCircle

/-- The overlay set of the dashboard page's mini map: `DashboardPage` renders
`<MapView devices={devices} alerts={[]} ...>` (App.tsx 304), passing the
empty alert list no matter what the ledger holds. -/
def dashboardMiniMapOverlays (devices : List Device) (_ledger : List Alert) :
    List Overlay :=
  buildOverlays devices []

/-! ### Map surface lifecycle (MapView init/cleanup effect, App.tsx 70-92) -/

/-- Lifecycle-relevant state of one mounted `MapView`: whether the container
div is attached (`mapContainerRef.current`), whether the Leaflet map exists
(`mapRef.current`), plus counters of `L.map(...)` creations and
`map.remove()` disposals for accounting. -/
structure MapSurface where
  containerAttached : Bool
  mapRef : Bool
  creations : Nat
  disposals : Nat
deriving DecidableEq, Repr

/-- Body of the init effect (App.tsx 71-84): create the map only when the
container is attached and no map exists yet (`mapContainerRef.current &&
!mapRef.current`). -/
def initEffect (s : MapSurface) : MapSurface :=
  if s.containerAttached && !s.mapRef then
    { s with mapRef := true, creations := s.creations + 1 }
  else
    s

/-- The effect's cleanup (App.tsx 86-91): if a map exists, `remove()` it and
null the ref; otherwise do nothing. -/
def cleanupEffect (s : MapSurface) : MapSurface :=
  if s.mapRef then
    { s with mapRef := false, disposals := s.disposals + 1 }
  else
    s

/-- One mount/unmount cycle: React runs the effect body on mount and its
cleanup on unmount (the `[]` dependency array means exactly one body run per
mount). -/
def mountCycle (s : MapSurface) : MapSurface :=
  cleanupEffect (initEffect s)

/-- `n` consecutive mount/unmount cycles. -/
def mountCycles : Nat → MapSurface → MapSurface
  | 0, s => s
  | n + 1, s => mountCycles n (mountCycle s)

/-! ### Derived read operations and observations -/

/-- Folding a whole batch of incoming alerts into the ledger through its
single insert operation, in arrival order. -/
def appendSeq (incoming : List Alert) (l : List Alert) : List Alert :=
  incoming.foldl (fun acc a => ledgerAppend a acc) l

/-- `alerts.filter(a => a.deviceId === selectedDevice.id)` (App.tsx 601):
the by-device view of the ledger handed to `DeviceDetailModal`. -/
def byDevice (devId : String) (l : List Alert) : List Alert :=
  l.filter (fun a => a.deviceId == devId)

/-- Whether an event appends an alert to the ledger: a tick whose draw fires
and whose device lookup succeeds.  Acknowledging never appends. -/
def appendsAlert (devices : List Device) (e : Event) : Bool :=
  match e with
  | Event.tick dr _ => decide (dr.fire > 9/10) && (chooseDevice devices dr.pick).isSome
  | Event.acknowledge => false

/-- Gate invariant: the active interrupting alert is none or High-severity. -/
def gateInv (s : AppState) : Prop :=
  s.highSeverityAlert = none ∨
    ∃ a : Alert, s.highSeverityAlert = some a ∧ a.severity = AlertSeverity.High

/-!
## Helper lemmas
-/

/-- Case characterization of one observable tick: it either leaves the state
alone (no fire, or the thrown TypeError on an out-of-range device index) or
prepends the fresh alert and points the gate at it. -/
theorem runTick_eq (devices : List Device) (dr : Draws) (ts : String)
    (s : AppState) :
    runTick devices dr ts s =
      if dr.fire > 9/10 then
        match chooseDevice devices dr.pick with
        | none => s
        | some d =>
            setHighSeverityAlert (some (mkAlert d dr ts))
              (applyAppend (mkAlert d dr ts) s)
      else s := by
  by_cases hf : dr.fire > 9/10
  · cases hc : chooseDevice devices dr.pick <;>
      simp [runTick, synthTick, hf, hc]
  · simp [runTick, synthTick, hf]

/-- Indexing an empty device array yields `undefined` for every draw. -/
theorem chooseDevice_nil (r : ℚ) : chooseDevice [] r = none := rfl

/-- Every step preserves the gate invariant. -/
theorem gateInv_step (devices : List Device) (s : AppState) (e : Event)
    (h : gateInv s) : gateInv (step devices s e) := by
  cases e with
  | acknowledge => exact Or.inl rfl
  | tick dr ts =>
      show gateInv (runTick devices dr ts s)
      rw [runTick_eq]
      by_cases hf : dr.fire > 9/10
      · simp only [if_pos hf]
        cases hc : chooseDevice devices dr.pick with
        | none => exact h
        | some d => exact Or.inr ⟨mkAlert d dr ts, rfl, rfl⟩
      · simpa [if_neg hf] using h

/-- The gate invariant holds along every run. -/
theorem gateInv_run (devices : List Device) (s : AppState) (evs : List Event)
    (h : gateInv s) : gateInv (run devices s evs) := by
  induction evs generalizing s with
  | nil => exact h
  | cons e rest ih => exact ih (step devices s e) (gateInv_step devices s e h)

/-- A step that appends no alert keeps an idle gate idle. -/
theorem gate_none_step (devices : List Device) (s : AppState) (e : Event)
    (hg : s.highSeverityAlert = none)
    (hne : appendsAlert devices e = false) :
    (step devices s e).highSeverityAlert = none := by
  cases e with
  | acknowledge => rfl
  | tick dr ts =>
      show (runTick devices dr ts s).highSeverityAlert = none
      rw [runTick_eq]
      by_cases hf : dr.fire > 9/10
      · have hd : decide (dr.fire > 9/10) = true := decide_eq_true hf
        simp only [appendsAlert, hd, Bool.true_and] at hne
        cases hc : chooseDevice devices dr.pick with
        | none => simpa [if_pos hf, hc] using hg
        | some d => rw [hc] at hne; simp at hne
      · simpa [if_neg hf] using hg

/-- A run that appends no alert keeps an idle gate idle. -/
theorem gate_none_run (devices : List Device) (s : AppState) (evs : List Event)
    (hg : s.highSeverityAlert = none)
    (hne : ∀ e ∈ evs, appendsAlert devices e = false) :
    (run devices s evs).highSeverityAlert = none := by
  induction evs generalizing s with
  | nil => exact hg
  | cons e rest ih =>
      exact ih (step devices s e)
        (gate_none_step devices s e hg (hne e (List.mem_cons_self e rest)))
        (fun x hx => hne x (List.mem_cons_of_mem e hx))

/-- Folding the prepend operation reverses the incoming batch onto the front
of the ledger. -/
theorem appendSeq_eq (incoming l : List Alert) :
    appendSeq incoming l = incoming.reverse ++ l := by
  induction incoming generalizing l with
  | nil => rfl
  | cons a rest ih =>
      show appendSeq rest (ledgerAppend a l) = (a :: rest).reverse ++ l
      rw [ih, ledgerAppend, List.reverse_cons, List.append_assoc,
        List.singleton_append]

/-- With draws in `[0,1)` and a non-empty device set, the uniform pick always
lands on a member of the set. -/
theorem chooseDevice_mem (devices : List Device) (r : ℚ)
    (hne : devices ≠ []) (h0 : 0 ≤ r) (h1 : r < 1) :
    ∃ d : Device, chooseDevice devices r = some d ∧ d ∈ devices := by
  have hlen : 0 < devices.length := List.length_pos.mpr hne
  have hn : (0:ℚ) < (devices.length : ℚ) := by exact_mod_cast hlen
  have hfl0 : (0:ℤ) ≤ Int.floor (r * (devices.length : ℚ)) :=
    Int.floor_nonneg.mpr (mul_nonneg h0 (le_of_lt hn))
  have hflt : Int.floor (r * (devices.length : ℚ)) < (devices.length : ℤ) := by
    rw [Int.floor_lt]
    push_cast
    calc r * (devices.length : ℚ)
        < 1 * (devices.length : ℚ) := by
          exact mul_lt_mul_of_pos_right h1 hn
      _ = (devices.length : ℚ) := one_mul _
  have hidx : (Int.floor (r * (devices.length : ℚ))).toNat < devices.length := by
    omega
  refine ⟨devices.get ⟨_, hidx⟩, ?_, List.get_mem devices _ _⟩
  unfold chooseDevice
  exact List.get?_eq_get hidx

/-- The perturbation `(r - 0.5) * 0.01` with `r ∈ [0,1)` stays within
`±0.005`. -/
theorem perturb_abs_le (r : ℚ) (h0 : 0 ≤ r) (h1 : r < 1) :
    |(r - 1/2) * (1/100)| ≤ 1/200 := by
  rw [abs_mul]
  have h2 : |r - 1/2| ≤ 1/2 := abs_le.mpr ⟨by linarith, by linarith⟩
  have h3 : |(1:ℚ)/100| = 1/100 := by norm_num
  rw [h3]
  calc |r - 1/2| * (1/100) ≤ (1/2) * (1/100) :=
        mul_le_mul_of_nonneg_right h2 (by norm_num)
    _ = 1/200 := by norm_num

/-- Circles are produced for exactly the non-Resolved alerts. -/
theorem alertCircles_length (alerts : List Alert) :
    (alerts.filterMap alertCircle).length =
      (alerts.filter (fun a => decide (a.severity ≠ AlertSeverity.Resolved))).length := by
  induction alerts with
  | nil => rfl
  | cons a rest ih =>
      by_cases h : a.severity = AlertSeverity.Resolved <;>
        simp [List.filterMap_cons, List.filter_cons, alertCircle, h, ih]

/-!
## Claims
-/

/-- A firing coin flip for the synthesizer (`Math.random() = 0.95 > 0.9` on
the fire check) whose device pick draw is 0, landing on the first device. -/
def exFireDraws : Draws :=
  { fire := 19/20, pick := 0, idDraw := 1/2, latDraw := 1/2, lngDraw := 1/2 }

/-- A non-firing coin flip: `Math.random() = 0.5 ≤ 0.9`. -/
def exQuietDraws : Draws :=
  { fire := 1/2, pick := 1/2, idDraw := 1/2, latDraw := 1/2, lngDraw := 1/2 }

/-- The fire check of `exFireDraws` passes. -/
theorem exFireDraws_fires : exFireDraws.fire > 9/10 := by
  show (19:ℚ)/20 > 9/10
  norm_num

/-- The fire check of `exQuietDraws` fails. -/
theorem exQuietDraws_no_fire : ¬ exQuietDraws.fire > 9/10 := by
  show ¬ (1:ℚ)/2 > 9/10
  norm_num

/-- A non-firing tick returns successfully with no alert and the state
untouched. -/
theorem synthTick_quiet (devices : List Device) (dr : Draws) (ts : String)
    (s : AppState) (hf : ¬ dr.fire > 9/10) :
    synthTick devices dr ts s = Except.ok (none, s) := by
  simp only [synthTick, if_neg hf]

/-- A pick draw of 0 lands on the first mock device, `D101`. -/
theorem chooseDevice_mock_zero :
    chooseDevice mockDevices exFireDraws.pick = some mockD101 := by
  have h1 : (Int.floor (exFireDraws.pick * (mockDevices.length : ℚ))).toNat = 0 := by
    show (Int.floor ((0:ℚ) * (mockDevices.length : ℚ))).toNat = 0
    rw [zero_mul, Int.floor_zero]
    rfl
  rw [chooseDevice, h1]
  rfl

/-- Claim C1, counterexample: the claim says a tick with an empty device set
performs no operation, but a firing tick (`Math.random() = 0.95 > 0.9`) with
zero devices indexes the empty array (`devices[0]` is `undefined`) and throws
a TypeError while reading `randomDevice.location`, instead of completing as a
no-op: the tick does not return successfully. -/
theorem C1_counterexample_firing_tick_throws :
    synthTick [] exFireDraws "t0" initialState =
      Except.error "TypeError: cannot read properties of undefined (reading location)" := by
  simp only [synthTick, if_pos exFireDraws_fires, chooseDevice_nil]

/-- Claim C1, amended: over any number of ticks with an empty device set the
observable state is unchanged — the ledger and the notification gate keep
their values and no alert is ever generated (any successfully returning tick
returns the state untouched with no alert) — but a firing tick aborts with a
thrown TypeError from the undefined device access rather than completing as a
clean no-op. -/
theorem C1_empty_devices_state_unchanged :
    (∀ (ticks : List (Draws × String)) (s : AppState), runTicks [] ticks s = s) ∧
    (∀ (dr : Draws) (ts : String) (s : AppState) (oa : Option Alert)
       (s2 : AppState),
       synthTick [] dr ts s = Except.ok (oa, s2) → oa = none ∧ s2 = s) := by
  have hrun : ∀ (dr : Draws) (ts : String) (s : AppState),
      runTick [] dr ts s = s := by
    intro dr ts s
    rw [runTick_eq, chooseDevice_nil]
    by_cases hf : dr.fire > 9/10 <;> simp [hf]
  constructor
  · intro ticks
    induction ticks with
    | nil => intro s; rfl
    | cons p rest ih =>
        intro s
        show runTicks [] rest (runTick [] p.1 p.2 s) = s
        rw [hrun p.1 p.2 s]
        exact ih s
  · intro dr ts s oa s2 h
    by_cases hf : dr.fire > 9/10
    · rw [synthTick, if_pos hf, chooseDevice_nil] at h
      cases h
    · rw [synthTick, if_neg hf] at h
      cases h
      exact ⟨rfl, rfl⟩

/-- Claim C1 witness for the amended statement: a non-firing tick on zero
devices returns successfully with no alert and the state untouched, and the
theorem applies to it. -/
theorem C1_empty_devices_state_unchanged_witness :
    (none : Option Alert) = none ∧ initialState = initialState :=
  C1_empty_devices_state_unchanged.2 exQuietDraws "t0" initialState none
    initialState (synthTick_quiet [] exQuietDraws "t0" initialState
      exQuietDraws_no_fire)

/-- Claim C2: the ledger's only insert places each new alert at the front
(`setAlerts(prev => [newAlert, ...prev])`), keeping every prior alert in its
previous relative order — after any batch of appends the ledger is the
reversed batch followed by the untouched old ledger, the old ledger is a
suffix, and no system transition mutates or deletes: every step leaves the
ledger alone or prepends exactly one alert. -/
theorem C2_ledger_is_append_only_prepend :
    ∀ (incoming l : List Alert),
      appendSeq incoming l = incoming.reverse ++ l ∧
      (∀ a : Alert,
        appendSeq (incoming ++ [a]) l = ledgerAppend a (appendSeq incoming l)) ∧
      List.IsSuffix l (appendSeq incoming l) ∧
      (∀ (devices : List Device) (e : Event) (s : AppState),
        (step devices s e).alerts = s.alerts ∨
        ∃ a : Alert, (step devices s e).alerts = ledgerAppend a s.alerts) := by
  intro incoming l
  refine ⟨appendSeq_eq incoming l, ?_, ?_, ?_⟩
  · intro a
    show (incoming ++ [a]).foldl (fun acc x => ledgerAppend x acc) l = _
    rw [List.foldl_append]
    rfl
  · rw [appendSeq_eq]
    exact ⟨incoming.reverse, rfl⟩
  · intro devices e s
    cases e with
    | acknowledge => exact Or.inl rfl
    | tick dr ts =>
        show (runTick devices dr ts s).alerts = s.alerts ∨
          ∃ a : Alert, (runTick devices dr ts s).alerts = ledgerAppend a s.alerts
        rw [runTick_eq]
        by_cases hf : dr.fire > 9/10
        · rw [if_pos hf]
          cases hc : chooseDevice devices dr.pick with
          | none => exact Or.inl rfl
          | some d => exact Or.inr ⟨mkAlert d dr ts, rfl⟩
        · rw [if_neg hf]
          exact Or.inl rfl

/-- Claim C2 witness: appending the two sample alerts to the seed ledger
prepends them newest-first and keeps the seed ledger as a suffix. -/
theorem C2_ledger_is_append_only_prepend_witness :
    appendSeq [mockA001, mockA002] mockAlerts =
      [mockA001, mockA002].reverse ++ mockAlerts ∧
    ((step mockDevices initialState Event.acknowledge).alerts =
        initialState.alerts ∨
      ∃ a : Alert, (step mockDevices initialState Event.acknowledge).alerts =
        ledgerAppend a initialState.alerts) :=
  ⟨(C2_ledger_is_append_only_prepend [mockA001, mockA002] mockAlerts).1,
   (C2_ledger_is_append_only_prepend [] []).2.2.2 mockDevices
     Event.acknowledge initialState⟩

/-- Claim C3: in every reachable state the notification gate
(`highSeverityAlert`) is none or holds a High-severity alert, and the ledger
append operation by itself (`setAlerts`, App.tsx line 570) never changes the
gate — in particular appending a non-High alert leaves the gate untouched. -/
theorem C3_gate_none_or_high :
    (∀ (devices : List Device) (s : AppState), Reachable devices s →
       s.highSeverityAlert = none ∨
       ∃ a : Alert, s.highSeverityAlert = some a ∧
         a.severity = AlertSeverity.High) ∧
    (∀ (a : Alert) (s : AppState), a.severity ≠ AlertSeverity.High →
       (applyAppend a s).highSeverityAlert = s.highSeverityAlert) := by
  constructor
  · rintro devices s ⟨evs, rfl⟩
    exact gateInv_run devices initialState evs (Or.inl rfl)
  · intro a s _
    rfl

/-- Claim C3 witness: the invariant holds at the initial state (gate idle),
and appending the Medium-severity seed alert `A002` leaves the gate
unchanged. -/
theorem C3_gate_none_or_high_witness :
    (initialState.highSeverityAlert = none ∨
      ∃ a : Alert, initialState.highSeverityAlert = some a ∧
        a.severity = AlertSeverity.High) ∧
    (applyAppend mockA002 initialState).highSeverityAlert =
      initialState.highSeverityAlert :=
  ⟨C3_gate_none_or_high.1 mockDevices initialState ⟨[], rfl⟩,
   C3_gate_none_or_high.2 mockA002 initialState (by decide)⟩

/-- Claim C4: two firing ticks in sequence with no intervening acknowledge
leave the gate holding the second synthesized alert — the second High alert
replaces the first on the modal (last-write-wins, no queue) — while both
alerts land on the ledger. -/
theorem C4_last_write_wins :
    ∀ (devices : List Device) (s : AppState) (dr1 dr2 : Draws)
      (ts1 ts2 : String) (d1 d2 : Device),
      dr1.fire > 9/10 → dr2.fire > 9/10 →
      chooseDevice devices dr1.pick = some d1 →
      chooseDevice devices dr2.pick = some d2 →
      (run devices s [Event.tick dr1 ts1, Event.tick dr2 ts2]).highSeverityAlert
          = some (mkAlert d2 dr2 ts2) ∧
      (run devices s [Event.tick dr1 ts1, Event.tick dr2 ts2]).alerts
          = mkAlert d2 dr2 ts2 :: mkAlert d1 dr1 ts1 :: s.alerts ∧
      (mkAlert d1 dr1 ts1).severity = AlertSeverity.High ∧
      (mkAlert d2 dr2 ts2).severity = AlertSeverity.High ∧
      (mkAlert d1 dr1 ts1 ≠ mkAlert d2 dr2 ts2 →
        (run devices s [Event.tick dr1 ts1, Event.tick dr2 ts2]).highSeverityAlert
          ≠ some (mkAlert d1 dr1 ts1)) := by
  intro devices s dr1 dr2 ts1 ts2 d1 d2 hf1 hf2 hc1 hc2
  have hstep : run devices s [Event.tick dr1 ts1, Event.tick dr2 ts2] =
      setHighSeverityAlert (some (mkAlert d2 dr2 ts2))
        (applyAppend (mkAlert d2 dr2 ts2)
          (setHighSeverityAlert (some (mkAlert d1 dr1 ts1))
            (applyAppend (mkAlert d1 dr1 ts1) s))) := by
    show runTick devices dr2 ts2 (runTick devices dr1 ts1 s) = _
    rw [runTick_eq, runTick_eq, if_pos hf1, if_pos hf2, hc1, hc2]
  rw [hstep]
  refine ⟨rfl, rfl, rfl, rfl, ?_⟩
  intro hne heq
  exact hne (Option.some.inj heq).symm

/-- Claim C4 witness: from the initial state, two firing ticks picking `D101`
at distinct timestamps leave the gate holding the second alert. -/
theorem C4_last_write_wins_witness :
    (run mockDevices initialState
        [Event.tick exFireDraws "t1", Event.tick exFireDraws "t2"]).highSeverityAlert
      = some (mkAlert mockD101 exFireDraws "t2") :=
  (C4_last_write_wins mockDevices initialState exFireDraws exFireDraws
    "t1" "t2" mockD101 mockD101 exFireDraws_fires exFireDraws_fires
    chooseDevice_mock_zero chooseDevice_mock_zero).1

/-- Claim C5: acknowledging (`onClose={() => setHighSeverityAlert(null)}`)
clears the gate; the gate then stays clear through every run containing no
alert-appending event; and the only transition that takes the gate from an
active alert to none is the acknowledge event. -/
theorem C5_acknowledge_clears_until_next_high :
    ∀ (devices : List Device) (s : AppState),
      ((step devices s Event.acknowledge).highSeverityAlert = none) ∧
      (∀ evs : List Event, (∀ e ∈ evs, appendsAlert devices e = false) →
        (run devices (step devices s Event.acknowledge) evs).highSeverityAlert
          = none) ∧
      (∀ (e : Event) (a : Alert), s.highSeverityAlert = some a →
        (step devices s e).highSeverityAlert = none →
        e = Event.acknowledge) := by
  intro devices s
  refine ⟨rfl, ?_, ?_⟩
  · intro evs hne
    exact gate_none_run devices _ evs rfl hne
  · intro e a ha hnone
    cases e with
    | acknowledge => rfl
    | tick dr ts =>
        exfalso
        have : (runTick devices dr ts s).highSeverityAlert = none := hnone
        rw [runTick_eq] at this
        by_cases hf : dr.fire > 9/10
        · rw [if_pos hf] at this
          cases hc : chooseDevice devices dr.pick with
          | none => rw [hc] at this; rw [ha] at this; cases this
          | some d => rw [hc] at this; cases this
        · rw [if_neg hf] at this
          rw [ha] at this
          cases this

/-- Claim C5 witness: from an interrupting state holding `A001`,
acknowledging clears the gate and it stays clear across a subsequent
non-firing tick; and with the gate active, only acknowledge can clear it. -/
theorem C5_acknowledge_clears_until_next_high_witness :
    (run mockDevices
        (step mockDevices
          { alerts := mockAlerts, highSeverityAlert := some mockA001 }
          Event.acknowledge)
        [Event.tick exQuietDraws "t1"]).highSeverityAlert = none :=
  (C5_acknowledge_clears_until_next_high mockDevices
    { alerts := mockAlerts, highSeverityAlert := some mockA001 }).2.1
    [Event.tick exQuietDraws "t1"]
    (by
      intro e he
      simp only [List.mem_singleton] at he
      subst he
      show (decide (exQuietDraws.fire > 9/10) &&
        (chooseDevice mockDevices exQuietDraws.pick).isSome) = false
      rw [decide_eq_false exQuietDraws_no_fire, Bool.false_and])

/-- Claim C6: the by-device view handed to `DeviceDetailModal`
(`alerts.filter(a => a.deviceId === selectedDevice.id)`) is exactly the
order-preserved subsequence of the full ledger whose `deviceId` matches: it
is a sublist of the ledger, every element of it matches the id, and every
matching element of the ledger is in it. -/
theorem C6_byDevice_subsequence :
    ∀ (devId : String) (l : List Alert),
      List.Sublist (byDevice devId l) l ∧
      (∀ a ∈ byDevice devId l, a.deviceId = devId) ∧
      (∀ a ∈ l, a.deviceId = devId → a ∈ byDevice devId l) := by
  intro devId l
  refine ⟨List.filter_sublist l, ?_, ?_⟩
  · intro a ha
    have h := List.mem_filter.mp ha
    exact eq_of_beq h.2
  · intro a ha h
    exact List.mem_filter.mpr ⟨ha, beq_iff_eq.mpr h⟩

/-- Claim C6 witness: the seed alert `A001` (deviceId `D101`) appears in the
by-device view of the seed ledger for `D101`. -/
theorem C6_byDevice_subsequence_witness :
    mockA001 ∈ byDevice "D101" mockAlerts :=
  (C6_byDevice_subsequence "D101" mockAlerts).2.2 mockA001
    (List.mem_cons_self _ _) rfl

/-- Claim C7: a firing tick with a non-empty device set and draws in `[0,1)`
picks a member of the device set and synthesizes an alert that references
that device's id, has severity High, and sits within ±0.005 degrees (= 1/200)
of the device on each axis — the location is the device's location plus
`(Math.random() - 0.5) * 0.01` per axis. -/
theorem C7_synthesized_alert_shape :
    ∀ (devices : List Device) (dr : Draws) (ts : String) (s : AppState),
      devices ≠ [] → dr.fire > 9/10 →
      0 ≤ dr.pick → dr.pick < 1 →
      0 ≤ dr.latDraw → dr.latDraw < 1 →
      0 ≤ dr.lngDraw → dr.lngDraw < 1 →
      ∃ d : Device, chooseDevice devices dr.pick = some d ∧ d ∈ devices ∧
        synthTick devices dr ts s =
          Except.ok (some (mkAlert d dr ts),
            setHighSeverityAlert (some (mkAlert d dr ts))
              (applyAppend (mkAlert d dr ts) s)) ∧
        (mkAlert d dr ts).deviceId = d.id ∧
        (mkAlert d dr ts).severity = AlertSeverity.High ∧
        |(mkAlert d dr ts).location.lat - d.location.lat| ≤ 1/200 ∧
        |(mkAlert d dr ts).location.lng - d.location.lng| ≤ 1/200 := by
  intro devices dr ts s hne hf hp0 hp1 hlat0 hlat1 hlng0 hlng1
  obtain ⟨d, hcd, hmem⟩ := chooseDevice_mem devices dr.pick hne hp0 hp1
  refine ⟨d, hcd, hmem, ?_, rfl, rfl, ?_, ?_⟩
  · simp only [synthTick, if_pos hf, hcd]
  · have h : (mkAlert d dr ts).location.lat - d.location.lat
        = (dr.latDraw - 1/2) * (1/100) := by
      show d.location.lat + (dr.latDraw - 1/2) * (1/100) - d.location.lat = _
      ring
    rw [h]
    exact perturb_abs_le dr.latDraw hlat0 hlat1
  · have h : (mkAlert d dr ts).location.lng - d.location.lng
        = (dr.lngDraw - 1/2) * (1/100) := by
      show d.location.lng + (dr.lngDraw - 1/2) * (1/100) - d.location.lng = _
      ring
    rw [h]
    exact perturb_abs_le dr.lngDraw hlng0 hlng1

/-- Claim C7 witness: the firing draw record applied to the mock device set
from the initial state. -/
theorem C7_synthesized_alert_shape_witness :
    ∃ d : Device,
      chooseDevice mockDevices exFireDraws.pick = some d ∧ d ∈ mockDevices ∧
      synthTick mockDevices exFireDraws "t1" initialState =
        Except.ok (some (mkAlert d exFireDraws "t1"),
          setHighSeverityAlert (some (mkAlert d exFireDraws "t1"))
            (applyAppend (mkAlert d exFireDraws "t1") initialState)) ∧
      (mkAlert d exFireDraws "t1").deviceId = d.id ∧
      (mkAlert d exFireDraws "t1").severity = AlertSeverity.High ∧
      |(mkAlert d exFireDraws "t1").location.lat - d.location.lat| ≤ 1/200 ∧
      |(mkAlert d exFireDraws "t1").location.lng - d.location.lng| ≤ 1/200 :=
  C7_synthesized_alert_shape mockDevices exFireDraws "t1" initialState
    (List.cons_ne_nil _ _) exFireDraws_fires
    (by show (0:ℚ) ≤ 0; norm_num) (by show (0:ℚ) < 1; norm_num)
    (by show (0:ℚ) ≤ 1/2; norm_num) (by show (1:ℚ)/2 < 1; norm_num)
    (by show (0:ℚ) ≤ 1/2; norm_num) (by show (1:ℚ)/2 < 1; norm_num)

/-- Claim C8: the overlay rebuild yields exactly one marker per device and
one circle per non-Resolved alert; marker color follows the three-way status
mapping Online→green, LowBattery→yellow, Offline→red, circle color is red for
High and orange for any other non-Resolved severity, circles have radius 200,
and Resolved alerts produce no overlay.  Concretely, device `D101` (Online,
at `(6.8, 80.8)`) with alert `A001` (High, at `(6.8, 80.8)`) yields one green
marker and one red radius-200 circle at that position. -/
theorem C8_overlay_sync_mapping :
    (∀ (devices : List Device) (alerts : List Alert),
       (buildOverlays devices alerts).length =
         devices.length +
           (alerts.filter
             (fun a => decide (a.severity ≠ AlertSeverity.Resolved))).length ∧
       ∀ d ∈ devices, deviceMarker d ∈ buildOverlays devices alerts) ∧
    (∀ st : DeviceStatus,
       (st = DeviceStatus.Online → statusColorClass st = "bg-green-500") ∧
       (st = DeviceStatus.LowBattery → statusColorClass st = "bg-yellow-500") ∧
       (st = DeviceStatus.Offline → statusColorClass st = "bg-red-500")) ∧
    (∀ a : Alert,
       (a.severity = AlertSeverity.Resolved → alertCircle a = none) ∧
       (a.severity ≠ AlertSeverity.Resolved →
         ∃ c : String,
           alertCircle a =
             some (Overlay.circle a.location c 200 (alertPopup a)) ∧
           (a.severity = AlertSeverity.High → c = "red") ∧
           (a.severity ≠ AlertSeverity.High → c = "orange"))) ∧
    buildOverlays [mockD101] [mockA001] =
      [Overlay.marker { lat := 6.8, lng := 80.8 } "bg-green-500"
         (devicePopup mockD101),
       Overlay.circle { lat := 6.8, lng := 80.8 } "red" 200
         (alertPopup mockA001)] := by
  refine ⟨?_, ?_, ?_, ?_⟩
  · intro devices alerts
    constructor
    · rw [buildOverlays, List.length_append, List.length_map,
        alertCircles_length]
    · intro d hd
      exact List.mem_append_left _ (List.mem_map_of_mem deviceMarker hd)
  · intro st
    refine ⟨?_, ?_, ?_⟩ <;> rintro rfl <;> rfl
  · intro a
    constructor
    · intro h
      simp [alertCircle, h]
    · intro h
      refine ⟨if a.severity = AlertSeverity.High then "red" else "orange",
        by simp [alertCircle, h], fun hh => by rw [if_pos hh],
        fun hh => by rw [if_neg hh]⟩
  · rfl

/-- Claim C8 witness: the `D101` marker is in the scenario overlay set, the
Online color is green, and making `A001` Resolved suppresses its circle. -/
theorem C8_overlay_sync_mapping_witness :
    deviceMarker mockD101 ∈ buildOverlays [mockD101] [mockA001] ∧
    statusColorClass DeviceStatus.Online = "bg-green-500" ∧
    alertCircle { mockA001 with severity := AlertSeverity.Resolved } = none :=
  ⟨(C8_overlay_sync_mapping.1 [mockD101] [mockA001]).2 mockD101
     (List.mem_cons_self _ _),
   (C8_overlay_sync_mapping.2.1 DeviceStatus.Online).1 rfl,
   (C8_overlay_sync_mapping.2.2.1
     { mockA001 with severity := AlertSeverity.Resolved }).1 rfl⟩

/-- A normal mount/unmount cycle creates and disposes exactly once, keeping
the no-map-alive, container-attached configuration. -/
theorem mountCycle_spec (s : MapSurface) (hc : s.containerAttached = true)
    (hm : s.mapRef = false) :
    mountCycle s =
      { containerAttached := true, mapRef := false,
        creations := s.creations + 1, disposals := s.disposals + 1 } := by
  obtain ⟨c, m, cr, di⟩ := s
  cases hc
  cases hm
  rfl

/-- Claim C9: with the container attached and no map alive, N mount/unmount
cycles perform exactly N creations and N disposals, never more, never fewer;
re-running the init effect with the map already created creates nothing new
(the `!mapRef.current` guard), and re-running the cleanup disposes nothing
twice (the `mapRef.current` guard). -/
theorem C9_mount_lifecycle :
    ∀ (n : Nat) (s : MapSurface),
      s.containerAttached = true → s.mapRef = false →
      ((mountCycles n s).creations = s.creations + n ∧
       (mountCycles n s).disposals = s.disposals + n ∧
       (mountCycles n s).mapRef = false ∧
       (mountCycles n s).containerAttached = true) ∧
      (∀ t : MapSurface, initEffect (initEffect t) = initEffect t) ∧
      (∀ t : MapSurface, cleanupEffect (cleanupEffect t) = cleanupEffect t) := by
  have hinit : ∀ t : MapSurface, initEffect (initEffect t) = initEffect t := by
    intro t
    by_cases h : (t.containerAttached && !t.mapRef) = true
    · have h1 : initEffect t =
          { t with mapRef := true, creations := t.creations + 1 } := by
        rw [initEffect, if_pos h]
      rw [h1, initEffect]
      simp
    · have h1 : initEffect t = t := by rw [initEffect, if_neg h]
      rw [h1, h1]
  have hclean : ∀ t : MapSurface,
      cleanupEffect (cleanupEffect t) = cleanupEffect t := by
    intro t
    by_cases h : t.mapRef = true
    · have h1 : cleanupEffect t =
          { t with mapRef := false, disposals := t.disposals + 1 } := by
        rw [cleanupEffect, if_pos h]
      rw [h1, cleanupEffect]
      simp
    · have h1 : cleanupEffect t = t := by rw [cleanupEffect, if_neg h]
      rw [h1, h1]
  intro n
  induction n with
  | zero =>
      intro s hc hm
      exact ⟨⟨by simp [mountCycles], by simp [mountCycles], hm, hc⟩,
        hinit, hclean⟩
  | succ k ih =>
      intro s hc hm
      have hcy := mountCycle_spec s hc hm
      have hrec :=
        (ih ⟨true, false, s.creations + 1, s.disposals + 1⟩ rfl rfl).1
      refine ⟨?_, hinit, hclean⟩
      have hstep : mountCycles (k + 1) s =
          mountCycles k ⟨true, false, s.creations + 1, s.disposals + 1⟩ := by
        show mountCycles k (mountCycle s) = _
        rw [hcy]
      rw [hstep]
      refine ⟨?_, ?_, hrec.2.2.1, hrec.2.2.2⟩
      · rw [hrec.1]
        show s.creations + 1 + k = s.creations + (k + 1)
        omega
      · rw [hrec.2.1]
        show s.disposals + 1 + k = s.disposals + (k + 1)
        omega

/-- Claim C9 witness: three cycles from a fresh attached surface count three
creations and three disposals. -/
theorem C9_mount_lifecycle_witness :
    (mountCycles 3 (⟨true, false, 0, 0⟩ : MapSurface)).creations = 0 + 3 ∧
    (mountCycles 3 (⟨true, false, 0, 0⟩ : MapSurface)).disposals = 0 + 3 :=
  ⟨((C9_mount_lifecycle 3 ⟨true, false, 0, 0⟩ rfl rfl).1).1,
   ((C9_mount_lifecycle 3 ⟨true, false, 0, 0⟩ rfl rfl).1).2.1⟩

/-- Claim C10: the dashboard's mini map is rendered with `alerts={[]}`
regardless of the ledger, so its overlay set is exactly the device markers —
all overlays are markers, one per device, and no alert circle ever appears no
matter what the ledger holds. -/
theorem C10_dashboard_map_markers_only :
    ∀ (devices : List Device) (ledger : List Alert),
      dashboardMiniMapOverlays devices ledger = devices.map deviceMarker ∧
      (dashboardMiniMapOverlays devices ledger).all Overlay.isMarker = true ∧
      (dashboardMiniMapOverlays devices ledger).length = devices.length := by
  intro devices ledger
  have h1 : dashboardMiniMapOverlays devices ledger =
      devices.map deviceMarker := by
    show buildOverlays devices [] = devices.map deviceMarker
    rw [buildOverlays]
    simp
  refine ⟨h1, ?_, by rw [h1, List.length_map]⟩
  rw [h1, List.all_eq_true]
  intro o ho
  obtain ⟨d, _, rfl⟩ := List.mem_map.mp ho
  rfl

end ElephantAlert
